import Mathlib

/-!
Verification development for the Valora Earth property-estimate service
(`main_app`: `ai_service.py`, `ai_models.py`, `views.py`, `models.py`).

The Python source is shallowly embedded: JSON values are an inductive type,
`json.loads` is a fuel-based recursive-descent parser, machine floats are
modelled as rationals (every numeric literal the claims mention — 0.85, 1.5,
0.0, 1.0, 2.47105 — is a finite decimal, exactly representable), stateful
views are functions from (database state, session state, request) to
(response, database state, session state), and Python exceptions are
`Except String` values carrying the stringified error.
-/

/-- JSON values as produced by `json.loads`: objects keep their key/value
pairs in textual order (Python dict semantics are recovered by making every
lookup last-occurrence-wins, matching `dict` construction order). -/
inductive Json where
  | null
  | bool (b : Bool)
  | num (q : ℚ)
  | str (s : String)
  | arr (xs : List Json)
  | obj (kvs : List (String × Json))

/-- JSON whitespace accepted between tokens by `json.loads`. -/
def isJsonWs (c : Char) : Bool :=
  c = ' ' || c = '\t' || c = '\n' || c = '\r'

/-- Python `str.strip()` whitespace (default set). -/
def isPyWs (c : Char) : Bool :=
  c = ' ' || c = '\t' || c = '\n' || c = '\r' || c = '\x0b' || c = '\x0c'

/-- Drop leading JSON whitespace. -/
def skipWs : List Char → List Char
  | [] => []
  | c :: cs => if isJsonWs c then skipWs cs else c :: cs

/-- Python `str.strip()` on a character list: drop leading and trailing
whitespace. -/
def stripL (cs : List Char) : List Char :=
  ((cs.dropWhile isPyWs).reverse.dropWhile isPyWs).reverse

/-- Python `str.strip()`. -/
def pyStrip (s : String) : String := String.mk (stripL s.data)

/-- Numeric value of a decimal digit character. -/
def digitVal (c : Char) : Nat := c.toNat - '0'.toNat

/-- Hexadecimal digit test. -/
def isHexDig (c : Char) : Bool :=
  c.isDigit || ('a' ≤ c && c ≤ 'f') || ('A' ≤ c && c ≤ 'F')

/-- Value of a hexadecimal digit character. -/
def hexVal (c : Char) : Nat :=
  if c.isDigit then c.toNat - '0'.toNat
  else if 'a' ≤ c && c ≤ 'f' then c.toNat - 'a'.toNat + 10
  else if 'A' ≤ c && c ≤ 'F' then c.toNat - 'A'.toNat + 10
  else 0

/-- Natural number denoted by a list of decimal digit characters. -/
def natOfDigits (ds : List Char) : Nat :=
  ds.foldl (fun acc c => acc * 10 + digitVal c) 0

/-- Parse the string body after an opening quote, handling the JSON escape
sequences (`\" \\ \/ \b \f \n \r \t \uXXXX`; a surrogate pair is read as two
separate code units, which none of the inputs in this development use).
Returns the decoded characters and the remainder after the closing quote. -/
def parseStringRest : List Char → Option (List Char × List Char)
  | [] => none
  | '"' :: rest => some ([], rest)
  | '\\' :: 'u' :: a :: b :: c :: d :: rest =>
    if isHexDig a && isHexDig b && isHexDig c && isHexDig d then
      (parseStringRest rest).map fun (s, r) =>
        (Char.ofNat (4096 * hexVal a + 256 * hexVal b + 16 * hexVal c + hexVal d) :: s, r)
    else none
  | '\\' :: e :: rest =>
    let dec : Option Char :=
      if e = '"' then some '"'
      else if e = '\\' then some '\\'
      else if e = '/' then some '/'
      else if e = 'b' then some '\x08'
      else if e = 'f' then some '\x0c'
      else if e = 'n' then some '\n'
      else if e = 'r' then some '\r'
      else if e = 't' then some '\t'
      else none
    match dec with
    | none => none
    | some ch => (parseStringRest rest).map fun (s, r) => (ch :: s, r)
  | c :: rest => (parseStringRest rest).map fun (s, r) => (c :: s, r)

/-- Split off a maximal run of decimal digits. -/
def takeDigits (cs : List Char) : List Char × List Char :=
  (cs.takeWhile Char.isDigit, cs.dropWhile Char.isDigit)

/-- Parse a JSON number (optional minus sign, integer part, optional
fraction, optional exponent), returning its exact rational value — both
Python ints and floats land in `Json.num`. -/
def parseNumber (cs : List Char) : Option (ℚ × List Char) :=
  let (neg, cs1) := match cs with
    | '-' :: t => (true, t)
    | _ => (false, cs)
  let (ip, cs2) := takeDigits cs1
  if ip = [] then none
  else
    let (fp, cs3) := match cs2 with
      | '.' :: t =>
        let (ds, r) := takeDigits t
        if ds = [] then ([], cs2) else (ds, r)
      | _ => ([], cs2)
    if cs2 ≠ cs3 && fp = [] then none
    else
      let (ex, cs4) : Option (Bool × List Char) × List Char := match cs3 with
        | 'e' :: t | 'E' :: t =>
          match t with
          | '-' :: u =>
            let (ds, r) := takeDigits u
            if ds = [] then (none, cs3) else (some (true, ds), r)
          | '+' :: u =>
            let (ds, r) := takeDigits u
            if ds = [] then (none, cs3) else (some (false, ds), r)
          | u =>
            let (ds, r) := takeDigits u
            if ds = [] then (none, cs3) else (some (false, ds), r)
        | _ => (none, cs3)
      let base : ℚ :=
        if fp = [] then (natOfDigits ip : ℚ)
        else (natOfDigits ip : ℚ) + (natOfDigits fp : ℚ) / (10 ^ fp.length : ℚ)
      let scaled : ℚ := match ex with
        | none => base
        | some (true, ds) => base / (10 ^ natOfDigits ds : ℚ)
        | some (false, ds) => base * (10 ^ natOfDigits ds : ℚ)
      some ((if neg then -scaled else scaled), cs4)

/-- Which grammar production the fused parser is working on. The five
mutually recursive procedures of the recursive-descent parser are fused into
one function over this index so that the recursion is structural in the fuel
and the parser evaluates inside the kernel. -/
inductive PM where
  | value
  | members
  | membersRest
  | items
  | itemsRest

/-- Intermediate results of the fused parser. -/
inductive PR where
  | val (j : Json)
  | kvs (l : List (String × Json))
  | vals (l : List Json)

/-- Fuel-based recursive-descent parser for the grammar of `json.loads`:
`PM.value` parses one JSON value; `PM.members`/`PM.membersRest` the inside
of an object after `{`; `PM.items`/`PM.itemsRest` the inside of an array
after `[`. -/
def parseStep : Nat → PM → List Char → Option (PR × List Char)
  | 0, _, _ => none
  | Nat.succ fuel, mode, cs =>
    match mode with
    | PM.value =>
      match skipWs cs with
      | [] => none
      | '\x7b' :: rest => parseStep fuel PM.members rest
      | '[' :: rest => parseStep fuel PM.items rest
      | '"' :: rest =>
        (parseStringRest rest).map fun (s, r) => (PR.val (Json.str (String.mk s)), r)
      | 't' :: 'r' :: 'u' :: 'e' :: rest => some (PR.val (Json.bool true), rest)
      | 'f' :: 'a' :: 'l' :: 's' :: 'e' :: rest => some (PR.val (Json.bool false), rest)
      | 'n' :: 'u' :: 'l' :: 'l' :: rest => some (PR.val Json.null, rest)
      | cs2 => (parseNumber cs2).map fun (q, r) => (PR.val (Json.num q), r)
    | PM.members =>
      match skipWs cs with
      | '\x7d' :: rest => some (PR.val (Json.obj []), rest)
      | cs2 =>
        match parseStep fuel PM.membersRest cs2 with
        | some (PR.kvs l, r) => some (PR.val (Json.obj l), r)
        | _ => none
    | PM.membersRest =>
      match skipWs cs with
      | '"' :: rest =>
        match parseStringRest rest with
        | none => none
        | some (k, r1) =>
          match skipWs r1 with
          | ':' :: r2 =>
            match parseStep fuel PM.value r2 with
            | some (PR.val v, r3) =>
              match skipWs r3 with
              | ',' :: r4 =>
                match parseStep fuel PM.membersRest r4 with
                | some (PR.kvs l, r5) => some (PR.kvs ((String.mk k, v) :: l), r5)
                | _ => none
              | '\x7d' :: r4 => some (PR.kvs [(String.mk k, v)], r4)
              | _ => none
            | _ => none
          | _ => none
      | _ => none
    | PM.items =>
      match skipWs cs with
      | ']' :: rest => some (PR.val (Json.arr []), rest)
      | cs2 =>
        match parseStep fuel PM.itemsRest cs2 with
        | some (PR.vals l, r) => some (PR.val (Json.arr l), r)
        | _ => none
    | PM.itemsRest =>
      match parseStep fuel PM.value cs with
      | some (PR.val v, r1) =>
        match skipWs r1 with
        | ',' :: r2 =>
          match parseStep fuel PM.itemsRest r2 with
          | some (PR.vals l, r3) => some (PR.vals (v :: l), r3)
          | _ => none
        | ']' :: r2 => some (PR.vals [v], r2)
        | _ => none
      | _ => none

/-- Parse one JSON value. -/
def parseValue (fuel : Nat) (cs : List Char) : Option (Json × List Char) :=
  match parseStep fuel PM.value cs with
  | some (PR.val j, r) => some (j, r)
  | _ => none

/-- Embedding of `json.loads` on a character list: one JSON value, with surrounding
whitespace allowed and any other trailing text rejected. -/
def jsonParse (cs : List Char) : Option Json :=
  match parseValue (3 * cs.length + 3) cs with
  | some (j, rest) => if skipWs rest = [] then some j else none
  | none => none

/-- Embedding of `json.loads` on a string. -/
def jsonParseS (s : String) : Option Json := jsonParse s.data

/-! ## Substring search (Python `str.find` / `in`, and the greedy regex) -/

/-- Test `leadsWith pat cs`: true when `pat` occurs at the start of `cs`. -/
def leadsWith : List Char → List Char → Bool
  | [], _ => true
  | _ :: _, [] => false
  | p :: ps, h :: hs => p = h && leadsWith ps hs

/-- Index of the first occurrence of `pat` in `hay` (Python `str.find`),
`none` when absent. -/
def findSub : List Char → List Char → Option Nat
  | [], pat => if leadsWith pat [] then some 0 else none
  | h :: t, pat =>
    if leadsWith pat (h :: t) then some 0 else (findSub t pat).map (· + 1)

/-- Index of the first occurrence of a character. -/
def findCh (cs : List Char) (c : Char) : Option Nat := cs.findIdx? (· = c)

/-- Index of the last occurrence of a character. -/
def lastCh (cs : List Char) (c : Char) : Option Nat :=
  (cs.reverse.findIdx? (· = c)).map fun k => cs.length - 1 - k

/-! ## Response validator: JSON extraction (`_parse_openai_response`, part 1)

Extraction order from the Python source: (a) a ```` ```json ```` fence —
content between the end of the first fence marker and the next ```` ``` ````
(or end of string), stripped; (b) text that stripped starts with `{` and
ends with `}`; (c) the greedy DOTALL regex `\x7b.*\x7d`, i.e. from the
first `{` to the last `}` provided the last `}` is after the first `{`. -/

def fenceJsonMark : List Char := ['`', '`', '`', 'j', 's', 'o', 'n']

def fenceMark : List Char := ['`', '`', '`']

/-- Trimmed text starts with `{` and ends with `}` (branch (b) test). -/
def braceDelim (st : List Char) : Bool :=
  (st.head? == some '\x7b') && (st.getLast? == some '\x7d')

/-- The JSON-candidate text `_parse_openai_response` extracts from the raw
provider content, `none` when no candidate is found. -/
def extractJson (cs : List Char) : Option (List Char) :=
  match findSub cs fenceJsonMark with
  | some i =>
    let tail := cs.drop (i + 7)
    let jend := (findSub tail fenceMark).getD tail.length
    some (stripL (tail.take jend))
  | none =>
    let st := stripL cs
    if braceDelim st then some st
    else
      match findCh cs '\x7b', lastCh cs '\x7d' with
      | some i, some j => if i < j then some ((cs.drop i).take (j + 1 - i)) else none
      | _, _ => none

/-! ## Response validator: post-parse shape checks (`_parse_openai_response`, part 2) -/

/-- Last-occurrence-wins key lookup, recovering Python `dict` semantics on
the parsed member list. -/
def lookupKey (kvs : List (String × Json)) (k : String) : Option Json :=
  (kvs.reverse.find? (fun p => p.1 = k)).map (·.2)

/-- Python `key in data` under duck typing: key membership for a dict,
element equality for a list, substring test for a string, `TypeError` for
the remaining JSON values. -/
def duckContains (j : Json) (k : String) : Except String Bool :=
  match j with
  | Json.obj kvs => Except.ok (lookupKey kvs k).isSome
  | Json.arr xs => Except.ok (xs.any fun x => match x with
      | Json.str s => s = k
      | _ => false)
  | Json.str s => Except.ok (findSub s.data k.data).isSome
  | _ => Except.error "argument of type is not iterable"

/-- Python `data[key]` under duck typing: dict lookup (`KeyError` when
absent), `TypeError` otherwise (string keys never index lists). -/
def duckGet (j : Json) (k : String) : Except String Json :=
  match j with
  | Json.obj kvs =>
    match lookupKey kvs k with
    | some v => Except.ok v
    | none => Except.error ("KeyError: " ++ k)
  | _ => Except.error "indices must be integers"

/-- Shape test `isinstance(v, list) and len(v) == 10`. -/
def isList10 (j : Json) : Bool :=
  match j with
  | Json.arr xs => xs.length = 10
  | _ => false

/-- The ten required top-level keys, in the order the source lists them. -/
def requiredFields : List String :=
  ["project_name", "project_description", "confidence_score",
   "factors_considered", "recommendations", "timeline", "risk_assessment",
   "cash_flow_projection", "revenue_breakdown", "cost_breakdown"]

/-- The three revenue-breakdown category keys, in source order. -/
def revenueKeys : List String :=
  ["agricultural_sales", "ecosystem_services", "subsidies_incentives"]

/-- The three cost-breakdown category keys, in source order. -/
def costKeys : List String :=
  ["operational_costs", "infrastructure", "maintenance"]

/-- The per-key loop body of the breakdown checks: each key must be present
in the breakdown value and map to a list of exactly 10 elements (the source
checks only `isinstance(list)` and the length, not that elements are
numeric). -/
def checkBreakdownKeys (bd : Json) (field : String) : List String → Except String Unit
  | [] => Except.ok ()
  | k :: rest => do
    let present ← duckContains bd k
    if !present then Except.error ("Missing " ++ k ++ " in " ++ field)
    else do
      let v ← duckGet bd k
      if isList10 v then checkBreakdownKeys bd field rest
      else Except.error (k ++ " must be a list of exactly 10 values")

/-- Breakdown check `if "revenue_breakdown" in data: ...` (and the cost analogue). -/
def checkBreakdown (data : Json) (field : String) (keys : List String) : Except String Unit := do
  let present ← duckContains data field
  if present then do
    let bd ← duckGet data field
    checkBreakdownKeys bd field keys
  else Except.ok ()

/-- Cash-flow check `if "cash_flow_projection" in data: ...`. -/
def checkCashFlow (data : Json) : Except String Unit := do
  let present ← duckContains data "cash_flow_projection"
  if present then do
    let v ← duckGet data "cash_flow_projection"
    if isList10 v then Except.ok ()
    else Except.error "cash_flow_projection must be a list of exactly 10 values"
  else Except.ok ()

/-- Collect the required top-level keys absent from `data`, in order. -/
def collectMissing (data : Json) : List String → Except String (List String)
  | [] => Except.ok []
  | f :: rest => do
    let present ← duckContains data f
    let others ← collectMissing data rest
    if present then Except.ok others else Except.ok (f :: others)

/-- Post-parse validation of `_parse_openai_response`, in source order:
cash-flow shape, revenue-breakdown keys, cost-breakdown keys, then the
ten required top-level keys. Error strings are the `ValueError` messages
of the source. -/
def validateData (data : Json) : Except String Json := do
  checkCashFlow data
  checkBreakdown data "revenue_breakdown" revenueKeys
  checkBreakdown data "cost_breakdown" costKeys
  let missing ← collectMissing data requiredFields
  if missing ≠ [] then
    Except.error ("Missing required fields: " ++ String.intercalate ", " missing)
  else Except.ok data

/-- Embedding of `_parse_openai_response`: empty-content check, JSON extraction, JSON
parse, then shape validation. The raised exceptions are modelled by their
message strings: inner errors are wrapped once as
`Failed to parse OpenAI response: ...` by the generic handler, and a JSON
decode failure becomes `Failed to parse OpenAI response as JSON`
(the Python parser diagnostic appended there is elided). -/
def parseOpenAIResponse (content : String) : Except String Json :=
  let cs := content.data
  if stripL cs = [] then
    Except.error "Failed to parse OpenAI response: OpenAI response is empty or contains no content"
  else
    match extractJson cs with
    | none => Except.error "Failed to parse OpenAI response: No valid JSON found in OpenAI response"
    | some jc =>
      match jsonParse jc with
      | none => Except.error "Failed to parse OpenAI response as JSON"
      | some data =>
        match validateData data with
        | Except.error e => Except.error ("Failed to parse OpenAI response: " ++ e)
        | Except.ok d => Except.ok d

/-! ## Pydantic models (`ai_models.py`) -/

/-- Model `PropertyInquiryRequest`: a validated inquiry. Construction-time field
constraints live in `mkPropertyInquiryRequest`. -/
structure PropertyInquiryRequest where
  address : String
  lot_size : ℚ
  lot_size_unit : String
  current_property : String
  property_goals : String
  investment_capacity : String
  preferences_concerns : String
  region : String

/-- Pydantic validation of `PropertyInquiryRequest(...)`: `address` has
`min_length=1, max_length=500`, `lot_size` has `gt=0`, and the five other
text fields have `min_length=1` (`lot_size_unit` is unconstrained). -/
def mkPropertyInquiryRequest (address : String) (lot_size : ℚ)
    (lot_size_unit current_property property_goals investment_capacity
     preferences_concerns region : String) : Except String PropertyInquiryRequest :=
  if 1 ≤ address.length && address.length ≤ 500 && decide (0 < lot_size)
      && 1 ≤ current_property.length && 1 ≤ property_goals.length
      && 1 ≤ investment_capacity.length && 1 ≤ preferences_concerns.length
      && 1 ≤ region.length then
    Except.ok ⟨address, lot_size, lot_size_unit, current_property, property_goals,
      investment_capacity, preferences_concerns, region⟩
  else Except.error "validation error for PropertyInquiryRequest"

/-- Model `PropertyEstimateResponse`: the structured estimate. The
`confidence_score` bound is enforced at construction (`estimateFromJson`). -/
structure PropertyEstimateResponse where
  project_name : String
  project_description : String
  confidence_score : ℚ
  factors_considered : List String
  recommendations : List String
  timeline : String
  risk_assessment : String
  cash_flow_projection : List ℚ
  revenue_breakdown : Json
  cost_breakdown : Json

/-- Required `str` field of a pydantic model, drawn from a parsed dict. -/
def reqStr (m : List (String × Json)) (k : String) : Except String String :=
  match lookupKey m k with
  | some (Json.str s) => Except.ok s
  | _ => Except.error ("validation error: " ++ k)

/-- Required `float` field (JSON ints and floats both qualify; lax
string-to-number coercion is elided). -/
def reqNum (m : List (String × Json)) (k : String) : Except String ℚ :=
  match lookupKey m k with
  | some (Json.num q) => Except.ok q
  | _ => Except.error ("validation error: " ++ k)

/-- Required `List[str]` field. -/
def reqStrList (m : List (String × Json)) (k : String) : Except String (List String) :=
  match lookupKey m k with
  | some (Json.arr xs) =>
    match xs.mapM (fun x => match x with | Json.str s => some s | _ => none) with
    | some l => Except.ok l
    | none => Except.error ("validation error: " ++ k)
  | _ => Except.error ("validation error: " ++ k)

/-- Required `List[float]` field. -/
def reqNumList (m : List (String × Json)) (k : String) : Except String (List ℚ) :=
  match lookupKey m k with
  | some (Json.arr xs) =>
    match xs.mapM (fun x => match x with | Json.num q => some q | _ => none) with
    | some l => Except.ok l
    | none => Except.error ("validation error: " ++ k)
  | _ => Except.error ("validation error: " ++ k)

/-- Required `dict` field, kept as a JSON object. -/
def reqDict (m : List (String × Json)) (k : String) : Except String Json :=
  match lookupKey m k with
  | some (Json.obj o) => Except.ok (Json.obj o)
  | _ => Except.error ("validation error: " ++ k)

/-- Construction `PropertyEstimateResponse(**estimate_data)`: pydantic validation of
the validated response dict, in field-declaration order; `confidence_score`
carries `ge=0.0, le=1.0`, so construction fails outside `[0, 1]`. -/
def estimateFromJson (data : Json) : Except String PropertyEstimateResponse :=
  match data with
  | Json.obj m => do
    let pn ← reqStr m "project_name"
    let pd ← reqStr m "project_description"
    let cs ← reqNum m "confidence_score"
    if cs < 0 ∨ 1 < cs then Except.error "validation error: confidence_score"
    else do
      let fc ← reqStrList m "factors_considered"
      let rc ← reqStrList m "recommendations"
      let tl ← reqStr m "timeline"
      let ra ← reqStr m "risk_assessment"
      let cfp ← reqNumList m "cash_flow_projection"
      let rb ← reqDict m "revenue_breakdown"
      let cb ← reqDict m "cost_breakdown"
      Except.ok ⟨pn, pd, cs, fc, rc, tl, ra, cfp, rb, cb⟩
  | _ => Except.error "estimate data is not a dict"

/-- Model `OpenAIResponse`: content, model name, token-usage dict, finish reason. -/
structure OpenAIResponse where
  content : String
  model : String
  usage : List (String × Nat)
  finish_reason : String

/-- Model `AIAnalysisResult`: the complete result of one generation. -/
structure AIAnalysisResult where
  inquiry : PropertyInquiryRequest
  estimate : PropertyEstimateResponse
  openai_response : OpenAIResponse
  analysis_timestamp : String
  processing_time : ℚ

/-! ## Prompt builder (`_create_analysis_prompt`) -/

/-- The inquiry as the prompt builder sees it through `hasattr`/`getattr`
duck typing: each of the eight attributes may be absent or `None` (`none`)
or carry a value (`some`). -/
structure InquiryAttrs where
  address : Option String
  lot_size : Option ℚ
  lot_size_unit : Option String
  region : Option String
  current_property : Option String
  property_goals : Option String
  investment_capacity : Option String
  preferences_concerns : Option String

/-- A validated `PropertyInquiryRequest` always presents all eight
attributes. -/
def PropertyInquiryRequest.attrs (r : PropertyInquiryRequest) : InquiryAttrs :=
  ⟨some r.address, some r.lot_size, some r.lot_size_unit, some r.region,
   some r.current_property, some r.property_goals, some r.investment_capacity,
   some r.preferences_concerns⟩

/-- The required-field scan of `_create_analysis_prompt`: collect, in the
fixed source order, every attribute that is absent or None. An
attribute holding an empty string is NOT collected. -/
def requiredMissing (inq : InquiryAttrs) : List String :=
  (if inq.address.isNone then ["address"] else [])
  ++ (if inq.lot_size.isNone then ["lot_size"] else [])
  ++ (if inq.lot_size_unit.isNone then ["lot_size_unit"] else [])
  ++ (if inq.region.isNone then ["region"] else [])
  ++ (if inq.current_property.isNone then ["current_property"] else [])
  ++ (if inq.property_goals.isNone then ["property_goals"] else [])
  ++ (if inq.investment_capacity.isNone then ["investment_capacity"] else [])
  ++ (if inq.preferences_concerns.isNone then ["preferences_concerns"] else [])

/-- Decimal digits of the fractional part of a rational in `[0, 1)`,
up to `fuel` digits (17 at the call site, past the precision of any double). -/
def fracDigitsAux : Nat → ℚ → String
  | 0, _ => ""
  | Nat.succ n, r =>
    if r = 0 then ""
    else
      let r10 := r * 10
      let d : ℤ := ⌊r10⌋
      toString d.natAbs ++ fracDigitsAux n (r10 - (d : ℚ))

/-- Python `str(float)` modelled on rationals: sign, integer part, and
either `.0` or the fractional digits. -/
def pyFloatRepr (q : ℚ) : String :=
  let sign := if q < 0 then "-" else ""
  let a := |q|
  let ip : ℤ := ⌊a⌋
  let frac := a - (ip : ℚ)
  if frac = 0 then sign ++ toString ip.natAbs ++ ".0"
  else sign ++ toString ip.natAbs ++ "." ++ fracDigitsAux 17 frac

/-- Python two-decimal float formatting (format spec .2f) modelled on rationals. -/
def fmtTwoDec (q : ℚ) : String :=
  let c : ℤ := round (q * 100)
  let sign := if c < 0 then "-" else ""
  let n := c.natAbs
  let frac := n % 100
  sign ++ toString (n / 100) ++ "." ++ (if frac < 10 then "0" ++ toString frac else toString frac)

/-- Concatenation of the pieces of an interpolated string. -/
def joinAll : List String → String
  | [] => ""
  | s :: rest => s ++ joinAll rest

/-- The f-string of `_create_analysis_prompt` as its literal/value pieces,
in source order. -/
def promptPieces (address : String) (lotSize lotSizeAcres : ℚ)
    (unitStr region cur goals invest prefs : String) : List String :=
  ["Analyze this agricultural property and provide a JSON response ONLY with no other text:\n\nPROPERTY DETAILS:\n- Address: ",
   address,
   "\n- Lot Size: ", pyFloatRepr lotSize, " ", unitStr, " (", fmtTwoDec lotSizeAcres,
   " acres)\n- Region: ", region,
   "\n- Current Property: ", cur,
   "\n- Property Goals: ", goals,
   "\n- Investment Capacity: ", invest,
   "\n- Preferences/Concerns: ", prefs,
   "\n\nReturn ONLY this JSON structure with realistic values based on the property details:\n",
   "\x7b\n    \"project_name\": \"Creative and descriptive project name for this property\",\n",
   "    \"project_description\": \"Detailed 100 word description of the regenerative agriculture project\",\n",
   "    \"confidence_score\": 0.85,\n",
   "    \"factors_considered\": [\"Location\", \"Lot size\", \"Market trends\", \"Soil quality\", \"Climate\"],\n",
   "    \"recommendations\": [\"Start with soil testing\", \"Implement agroforestry\", \"Consider rotational grazing\"],\n",
   "    \"timeline\": \"X-X years for full implementation\",\n",
   "    \"risk_assessment\": \"Moderate risk with proper planning and execution\",\n",
   "    \"cash_flow_projection\": [year1, year2, year3, year4, year5, year6, year7, year8, year9, year10],\n",
   "    \"revenue_breakdown\": \x7b\n",
   "        \"agricultural_sales\": [year1, year2, year3, year4, year5, year6, year7, year8, year9, year10],\n",
   "        \"ecosystem_services\": [year1, year2, year3, year4, year5, year6, year7, year8, year9, year10],\n",
   "        \"subsidies_incentives\": [year1, year2, year3, year4, year5, year6, year7, year8, year9, year10]\n",
   "    \x7d,\n",
   "    \"cost_breakdown\": \x7b\n",
   "        \"operational_costs\": [year1, year2, year3, year4, year5, year6, year7, year8, year9, year10],\n",
   "        \"infrastructure\": [year1, year2, year3, year4, year5, year6, year7, year8, year9, year10],\n",
   "        \"maintenance\": [year1, year2, year3, year4, year5, year6, year7, year8, year9, year10]\n",
   "    \x7d\n\x7d\n\nIMPORTANT FINANCIAL PROJECTION REQUIREMENTS:\n- Provide 10 years of realistic financial projections\n- All values should be in USD\n- Consider regional market conditions for ",
   region,
   "\n- Factor in regenerative agriculture benefits like ecosystem services and carbon credits\n\nFocus on regenerative agriculture, sustainability, and economic viability. Use realistic financial estimates for ",
   region,
   "."]

/-- Embedding of `_create_analysis_prompt`: the missing-attribute scan, the
hectares-to-acres display conversion (fixed constant 2.47105, applied only
to the prompt text), and the f-string. The inquiry is returned alongside
the prompt to make visible that the builder reads but never writes it. -/
def createAnalysisPrompt (inq : InquiryAttrs) : Except String (String × InquiryAttrs) :=
  match inq.address, inq.lot_size, inq.lot_size_unit, inq.region,
        inq.current_property, inq.property_goals, inq.investment_capacity,
        inq.preferences_concerns with
  | some a, some ls, some u, some reg, some cp, some pg, some ic, some pc =>
    let lot_size_acres := if u = "hectares" then ls * (247105 / 100000 : ℚ) else ls
    Except.ok (joinAll (promptPieces a ls lot_size_acres u reg cp pg ic pc), inq)
  | _, _, _, _, _, _, _, _ =>
    Except.error ("Missing required inquiry fields: " ++ String.intercalate ", " (requiredMissing inq))

/-! ## Provider client (`_call_openai_api_async` / `_call_openai_api`) -/

/-- A message inside a provider choice; `content` may be `None`. -/
structure ApiMessage where
  content : Option String

/-- One provider choice; `message` may be `None`. -/
structure ApiChoice where
  message : Option ApiMessage
  finish_reason : String

/-- The raw provider response object. -/
structure ApiResponse where
  choices : List ApiChoice
  model : String
  usage : List (String × Nat)

/-- What the provider boundary does on this request: raise, or return a
response object. -/
inductive ProviderBehavior where
  | raises (msg : String)
  | returns (resp : ApiResponse)

/-- Environment of one provider call: whether `OPENAI_API_KEY` is set and
what the network does. -/
structure CallEnv where
  hasApiKey : Bool
  provider : ProviderBehavior

/-- Truthiness of the message content of the first choice
(`not response.choices[0].message or not response.choices[0].message.content`). -/
def firstContentTruthy (r : ApiResponse) : Bool :=
  match r.choices with
  | [] => false
  | c :: _ =>
    match c.message with
    | none => false
    | some m => (m.content.getD "") ≠ ""

/-- Content of the first choice, after the call variants have guaranteed it
is present and nonempty. -/
def firstContent (r : ApiResponse) : String :=
  match r.choices with
  | [] => ""
  | c :: _ =>
    match c.message with
    | none => ""
    | some m => m.content.getD ""

/-- Finish reason of the first choice. -/
def firstFinishReason (r : ApiResponse) : String :=
  match r.choices with
  | [] => ""
  | c :: _ => c.finish_reason

/-- Embedding of `_call_openai_api_async` (fixed model, temperature 0.7, max_tokens 2000,
timeout 30; the prompt argument is carried but the outcome is the
environment outcome). Inner failures name their condition and are wrapped once by
the handler of the function itself. -/
def callOpenAIApiAsync (env : CallEnv) (_prompt : String) : Except String ApiResponse :=
  if !env.hasApiKey then
    Except.error "OpenAI API key not found. Please set OPENAI_API_KEY in your .env file."
  else
    match env.provider with
    | ProviderBehavior.raises e => Except.error ("OpenAI API call failed: " ++ e)
    | ProviderBehavior.returns r =>
      if r.choices.isEmpty then
        Except.error "OpenAI API call failed: OpenAI API returned no choices"
      else if !firstContentTruthy r then
        Except.error "OpenAI API call failed: OpenAI API returned empty content"
      else Except.ok r

/-- Embedding of `_call_openai_api` (sync variant): identical checks, but the two inner
raises both carry the generic message `OpenAI API call failed`, so after the
handler wraps them the reported error is
`OpenAI API call failed: OpenAI API call failed`. -/
def callOpenAIApi (env : CallEnv) (_prompt : String) : Except String ApiResponse :=
  if !env.hasApiKey then
    Except.error "OpenAI API key not found. Please set OPENAI_API_KEY in your .env file."
  else
    match env.provider with
    | ProviderBehavior.raises e => Except.error ("OpenAI API call failed: " ++ e)
    | ProviderBehavior.returns r =>
      if r.choices.isEmpty then
        Except.error "OpenAI API call failed: OpenAI API call failed"
      else if !firstContentTruthy r then
        Except.error "OpenAI API call failed: OpenAI API call failed"
      else Except.ok r

/-! ## Generation (`generate_property_estimate_async` / `generate_property_estimate`)

The two Python generator bodies are line-for-line identical except for which
call variant they invoke, so both are embedded through the shared
`generateCore`; `analysis_timestamp` and `processing_time` come from the
clock and are passed as parameters. -/

/-- The body shared by both generator variants: build the prompt, call the
provider through `call`, parse and validate the content, construct the
pydantic models, and wrap any failure as `Failed to generate estimate: ...`. -/
def generateCore (call : String → Except String ApiResponse)
    (inquiry : PropertyInquiryRequest) (ts : String) (pt : ℚ) :
    Except String AIAnalysisResult :=
  let run : Except String AIAnalysisResult := do
    let prompt ← (createAnalysisPrompt inquiry.attrs).map (·.1)
    let resp ← call prompt
    let content := firstContent resp
    let data ← parseOpenAIResponse content
    let estimate ← estimateFromJson data
    let responseModel : OpenAIResponse :=
      ⟨content, resp.model, resp.usage, firstFinishReason resp⟩
    Except.ok ⟨inquiry, estimate, responseModel, ts, pt⟩
  match run with
  | Except.error e => Except.error ("Failed to generate estimate: " ++ e)
  | Except.ok r => Except.ok r

/-- Embedding of `generate_property_estimate_async`. -/
def generatePropertyEstimateAsync (inquiry : PropertyInquiryRequest)
    (env : CallEnv) (ts : String) (pt : ℚ) : Except String AIAnalysisResult :=
  generateCore (callOpenAIApiAsync env) inquiry ts pt

/-- Embedding of `generate_property_estimate` (sync variant). -/
def generatePropertyEstimate (inquiry : PropertyInquiryRequest)
    (env : CallEnv) (ts : String) (pt : ℚ) : Except String AIAnalysisResult :=
  generateCore (callOpenAIApi env) inquiry ts pt

/-! ## Database rows (`models.py`) and session state -/

/-- Row of `PropertyInquiry`. -/
structure PropertyInquiry where
  id : Nat
  address : String
  lot_size : ℚ
  lot_size_unit : String
  current_property : String
  property_goals : String
  investment_capacity : String
  preferences_concerns : String
  region : String

/-- Row of `PropertyEstimate` (one-to-one with its inquiry). -/
structure PropertyEstimate where
  inquiryId : Nat
  project_name : String
  project_description : String
  confidence_score : ℚ
  factors_considered : List String
  recommendations : List String
  timeline : String
  risk_assessment : String
  cash_flow_projection : List ℚ
  revenue_breakdown : Json
  cost_breakdown : Json
  ai_response_raw : Json
  processing_time : ℚ

/-- Row of `AIAnalysisLog` (many-to-one with its inquiry, append-only). -/
structure AIAnalysisLog where
  inquiryId : Nat
  request_data : Json
  response_data : Json
  model_used : String
  tokens_used : Nat
  processing_time : ℚ
  success : Bool
  error_message : String

/-- The relational store. -/
structure DB where
  inquiries : List PropertyInquiry
  estimates : List PropertyEstimate
  logs : List AIAnalysisLog

/-- The initial-form data held in the session. -/
structure InitialData where
  lot_size : ℚ
  lot_size_unit : String
  region : String

/-- The per-user session, restricted to the four keys the flow uses. -/
structure Session where
  initial_data : Option InitialData
  questionnaire_answers : Option (List (String × String))
  current_inquiry_id : Option Nat
  questionnaire_data : Option Json

/-- Session pops `request.session.pop(k, None)` for the four keys cleared after a
successful generation. -/
def popGenerateKeys (sess : Session) : Session :=
  { sess with questionnaire_data := none, initial_data := none,
              questionnaire_answers := none, current_inquiry_id := none }

/-- Model dump of the inquiry request, `inquiry_request.model_dump`. -/
def inquiryRequestJson (r : PropertyInquiryRequest) : Json :=
  Json.obj [("address", Json.str r.address), ("lot_size", Json.num r.lot_size),
    ("lot_size_unit", Json.str r.lot_size_unit),
    ("current_property", Json.str r.current_property),
    ("property_goals", Json.str r.property_goals),
    ("investment_capacity", Json.str r.investment_capacity),
    ("preferences_concerns", Json.str r.preferences_concerns),
    ("region", Json.str r.region)]

/-- Model dump of the provider response, `openai_response.model_dump`. -/
def openAIResponseJson (o : OpenAIResponse) : Json :=
  Json.obj [("content", Json.str o.content), ("model", Json.str o.model),
    ("usage", Json.obj (o.usage.map fun p => (p.1, Json.num (p.2 : ℚ)))),
    ("finish_reason", Json.str o.finish_reason)]

/-- Token count read from the usage dict under total_tokens, default 0. -/
def totalTokens (usage : List (String × Nat)) : Nat :=
  match usage.find? (fun p => p.1 = "total_tokens") with
  | some p => p.2
  | none => 0

/-! ## `generate_ai_estimate` view (`views.py`) -/

/-- Responses of the generate endpoint: success payload (HTTP 200),
`Property inquiry not found` (HTTP 404), or the stringified error
(HTTP 500). -/
inductive GenResponse where
  | success (estimate : PropertyEstimate)
  | notFound
  | failure (error : String)

/-- Upsert `update_or_create(inquiry=inquiry, defaults=...)`: replace the estimate
row keyed by this inquiry, or append a new one. -/
def upsertEstimate (rows : List PropertyEstimate) (iid : Nat) (row : PropertyEstimate) :
    List PropertyEstimate :=
  if rows.any (fun r => r.inquiryId = iid) then
    rows.map (fun r => if r.inquiryId = iid then row else r)
  else rows ++ [row]

/-- The generation pipeline run by the view after the inquiry row is
fetched: pydantic construction of the inquiry request, then the async
generator. A failure of any stage surfaces as the stringified error. -/
def pipelineAfterFetch (inq : PropertyInquiry) (env : CallEnv) (ts : String) (pt : ℚ) :
    Except String (PropertyInquiryRequest × AIAnalysisResult) := do
  let req ← mkPropertyInquiryRequest inq.address inq.lot_size inq.lot_size_unit
    inq.current_property inq.property_goals inq.investment_capacity
    inq.preferences_concerns inq.region
  let res ← generatePropertyEstimateAsync req env ts pt
  Except.ok (req, res)

/-- The estimate row written on success, from the validated result. -/
def estimateRowOf (iid : Nat) (res : AIAnalysisResult) : PropertyEstimate :=
  ⟨iid, res.estimate.project_name, res.estimate.project_description,
   res.estimate.confidence_score, res.estimate.factors_considered,
   res.estimate.recommendations, res.estimate.timeline,
   res.estimate.risk_assessment, res.estimate.cash_flow_projection,
   res.estimate.revenue_breakdown, res.estimate.cost_breakdown,
   openAIResponseJson res.openai_response, res.processing_time⟩

/-- Embedding of `generate_ai_estimate`: fetch the inquiry (404 when absent); run the
pipeline; on success upsert the estimate row, append a success log row and
pop the four session keys; on any pipeline failure append exactly one
failure log row (empty payloads, model `unknown`, zero tokens, zero
duration, the stringified error) and leave estimates and session untouched.
The two success-path writes are modelled as both completing (the source
awaits both; their mutual order is unobservable in the final state). -/
def generateAiEstimate (db : DB) (sess : Session) (inquiryId : Nat)
    (env : CallEnv) (ts : String) (pt : ℚ) : GenResponse × DB × Session :=
  match db.inquiries.find? (fun r => r.id = inquiryId) with
  | none => (GenResponse.notFound, db, sess)
  | some inq =>
    match pipelineAfterFetch inq env ts pt with
    | Except.error e =>
      (GenResponse.failure e,
       { db with logs := db.logs ++
           [⟨inquiryId, Json.obj [], Json.obj [], "unknown", 0, 0, false, e⟩] },
       sess)
    | Except.ok (req, res) =>
      let row := estimateRowOf inquiryId res
      (GenResponse.success row,
       { db with
           estimates := upsertEstimate db.estimates inquiryId row,
           logs := db.logs ++
             [⟨inquiryId, inquiryRequestJson req, openAIResponseJson res.openai_response,
               res.openai_response.model, totalTokens res.openai_response.usage,
               res.processing_time, true, ""⟩] },
       popGenerateKeys sess)

/-! ## `estimate_questionnaire` view (`views.py`) -/

/-- Responses of the questionnaire view. -/
inductive QResponse where
  | redirectIndex
  | renderStep (step : Nat) (messages : List String) (initial : InitialData)
      (answers : List (String × String))
  | redirectToStep (step : Nat)
  | redirectLoading

/-- Step parameter clamped to `[1, 4]`, out-of-range resetting to 1. -/
def clampStep (n : Int) : Nat :=
  if n < 1 ∨ n > 4 then 1 else n.toNat

/-- The step-to-field mapping (total here; the source dict is only indexed
with a clamped step). -/
def fieldMapping (step : Nat) : String :=
  match step with
  | 1 => "current_property"
  | 2 => "property_goals"
  | 3 => "investment_capacity"
  | _ => "preferences_concerns"

/-- Assignment `questionnaire_answers[field] = answer`: replace an existing key or
append. -/
def setAnswer (answers : List (String × String)) (k v : String) :
    List (String × String) :=
  if answers.any (fun p => p.1 = k) then
    answers.map (fun p => if p.1 = k then (k, v) else p)
  else answers ++ [(k, v)]

/-- Next auto-increment primary key. -/
def nextInquiryId (db : DB) : Nat :=
  (db.inquiries.map (fun r => r.id)).foldr max 0 + 1

/-- The merged `inquiry_data` dict stored in the session on step 4:
initial data, then the synthesized address, then the four answers. -/
def inquiryDataJson (initd : InitialData) (addr : String)
    (answers : List (String × String)) : Json :=
  Json.obj ([("lot_size", Json.num initd.lot_size),
    ("lot_size_unit", Json.str initd.lot_size_unit),
    ("region", Json.str initd.region), ("address", Json.str addr)]
    ++ answers.map (fun p => (p.1, Json.str p.2)))

/-- Embedding of `estimate_questionnaire`: redirect to the entry form without initial
data; on GET render the clamped step; on POST with a blank answer re-render
the same step with an error and change nothing; otherwise store the
stripped answer and advance, and on step 4 merge the data, create the
inquiry row, record its id and the merged data in the session, and redirect
to the loading screen (a missing earlier answer at that point is the
KeyError of the source, caught and re-rendered as an error). -/
def estimateQuestionnaire (db : DB) (sess : Session) (isPost : Bool)
    (stepParam : Int) (answer : String) : QResponse × Session × DB :=
  match sess.initial_data with
  | none => (QResponse.redirectIndex, sess, db)
  | some initd =>
    let step := clampStep stepParam
    let answers := sess.questionnaire_answers.getD []
    if isPost then
      let ans := pyStrip answer
      if ans = "" then
        (QResponse.renderStep step ["Please provide an answer before continuing."] initd answers,
         sess, db)
      else
        let answers2 := setAnswer answers (fieldMapping step) ans
        let sess2 := { sess with questionnaire_answers := some answers2 }
        if step = 4 then
          match answers2.find? (fun p => p.1 = "current_property"),
                answers2.find? (fun p => p.1 = "property_goals"),
                answers2.find? (fun p => p.1 = "investment_capacity"),
                answers2.find? (fun p => p.1 = "preferences_concerns") with
          | some cp, some pg, some ic, some pc =>
            let addr := "Property in " ++ initd.region
            let nid := nextInquiryId db
            let row : PropertyInquiry :=
              ⟨nid, addr, initd.lot_size, initd.lot_size_unit, cp.2, pg.2, ic.2, pc.2,
               initd.region⟩
            let sess3 : Session :=
              { sess2 with
                  current_inquiry_id := some nid
                  questionnaire_data := some (inquiryDataJson initd addr answers2) }
            (QResponse.redirectLoading, sess3, { db with inquiries := db.inquiries ++ [row] })
          | _, _, _, _ =>
            (QResponse.renderStep step ["Error processing estimate"] initd answers2, sess2, db)
        else (QResponse.redirectToStep (step + 1), sess2, db)
    else (QResponse.renderStep step [] initd answers, sess, db)

/-! ## Definitions used by the theorem statements -/

/-- Predicate stating that `needle` occurs in `hay` as a contiguous substring. -/
def containsStr (hay needle : String) : Prop :=
  ∃ l r, hay.data = l ++ needle.data ++ r

/-- Every key of `keys` is present in the breakdown value and maps to a
list of exactly 10 elements. -/
def bdAllOK (bd : Json) (keys : List String) : Bool :=
  match bd with
  | Json.obj m => keys.all fun k =>
      match lookupKey m k with
      | some v => isList10 v
      | none => false
  | _ => false

/-- All validator checks other than the cash-flow one pass on this dict:
each breakdown, when present, has its three keys well-shaped, and the ten
required keys are present. -/
def otherChecksOK (kvs : List (String × Json)) : Bool :=
  (match lookupKey kvs "revenue_breakdown" with
   | none => true
   | some bd => bdAllOK bd revenueKeys)
  && (match lookupKey kvs "cost_breakdown" with
      | none => true
      | some bd => bdAllOK bd costKeys)
  && requiredFields.all (fun f => (lookupKey kvs f).isSome)

/-- The first error the breakdown key loop reports on this dict, if any:
a `Missing <key> in <field>` for the first absent key, or a shape error for
the first key not mapping to a 10-element list. -/
def firstBreakdownError (m : List (String × Json)) (field : String) :
    List String → Option String
  | [] => none
  | k :: rest =>
    match lookupKey m k with
    | none => some ("Missing " ++ k ++ " in " ++ field)
    | some v =>
      if isList10 v then firstBreakdownError m field rest
      else some (k ++ " must be a list of exactly 10 values")

/-- A 10-element all-numeric JSON array. -/
def tenNums : List Json := List.replicate 10 (Json.num 1)

/-- A 10-element JSON array every element of which is a string. -/
def tenStrs : List Json := List.replicate 10 (Json.str "not a number")

/-- Is every element of the array a JSON string (hence non-numeric)? -/
def allStrings (xs : List Json) : Bool :=
  xs.all fun x => match x with | Json.str _ => true | _ => false

/-- The member list of a response dict that passes every validator check,
with the `confidence_score` value left as a parameter. -/
def c6Fields (cs : ℚ) : List (String × Json) :=
  [("project_name", Json.str "P"), ("project_description", Json.str "D"),
    ("confidence_score", Json.num cs), ("factors_considered", Json.arr [Json.str "F"]),
    ("recommendations", Json.arr [Json.str "R"]), ("timeline", Json.str "T"),
    ("risk_assessment", Json.str "RA"), ("cash_flow_projection", Json.arr tenNums),
    ("revenue_breakdown", Json.obj [("agricultural_sales", Json.arr tenNums),
      ("ecosystem_services", Json.arr tenNums), ("subsidies_incentives", Json.arr tenNums)]),
    ("cost_breakdown", Json.obj [("operational_costs", Json.arr tenNums),
      ("infrastructure", Json.arr tenNums), ("maintenance", Json.arr tenNums)])]

/-- A response dict that passes every validator check, with the
`confidence_score` value left as a parameter. -/
def c6Data (cs : ℚ) : Json := Json.obj (c6Fields cs)

/-- A full, otherwise valid response dict whose revenue `agricultural_sales`
array holds 10 strings instead of 10 numbers. -/
def c2Data : Json :=
  Json.obj [("project_name", Json.str "P"), ("project_description", Json.str "D"),
    ("confidence_score", Json.num (17 / 20)), ("factors_considered", Json.arr [Json.str "F"]),
    ("recommendations", Json.arr [Json.str "R"]), ("timeline", Json.str "T"),
    ("risk_assessment", Json.str "RA"), ("cash_flow_projection", Json.arr tenNums),
    ("revenue_breakdown", Json.obj [("agricultural_sales", Json.arr tenStrs),
      ("ecosystem_services", Json.arr tenNums), ("subsidies_incentives", Json.arr tenNums)]),
    ("cost_breakdown", Json.obj [("operational_costs", Json.arr tenNums),
      ("infrastructure", Json.arr tenNums), ("maintenance", Json.arr tenNums)])]

/-- A valid JSON object text whose sole string value contains a triple
backtick. -/
def c5Bad : String := "\x7b\"a\": \"```\"\x7d"

/-- A small valid JSON object text with no backticks. -/
def c5Good : String := "\x7b\"a\": 1\x7d"

/-- A provider content string carrying the full well-formed schema. -/
def goodContent : String :=
  joinAll ["\x7b\"project_name\": \"P\", \"project_description\": \"D\", ",
    "\"confidence_score\": 1, \"factors_considered\": [\"F\"], ",
    "\"recommendations\": [\"R\"], \"timeline\": \"T\", \"risk_assessment\": \"RA\", ",
    "\"cash_flow_projection\": [1,2,3,4,5,6,7,8,9,10], ",
    "\"revenue_breakdown\": \x7b\"agricultural_sales\": [1,2,3,4,5,6,7,8,9,10], ",
    "\"ecosystem_services\": [1,2,3,4,5,6,7,8,9,10], ",
    "\"subsidies_incentives\": [1,2,3,4,5,6,7,8,9,10]\x7d, ",
    "\"cost_breakdown\": \x7b\"operational_costs\": [1,2,3,4,5,6,7,8,9,10], ",
    "\"infrastructure\": [1,2,3,4,5,6,7,8,9,10], ",
    "\"maintenance\": [1,2,3,4,5,6,7,8,9,10]\x7d\x7d"]

/-- An inquiry row with valid (pydantic-passing) field values. -/
def someInquiryRow : PropertyInquiry :=
  ⟨1, "Property in California", 25, "acres", "Vineyard", "Regeneration",
   "100k", "Water use", "California"⟩

/-- A session holding all four flow keys. -/
def someSession : Session :=
  ⟨some ⟨25, "acres", "California"⟩, some [("current_property", "Vineyard")], some 1,
   some (Json.obj [])⟩

/-- A store containing exactly the one inquiry row. -/
def someDb : DB := ⟨[someInquiryRow], [], []⟩

/-- An environment in which the provider raises a timeout. -/
def timeoutEnv : CallEnv := ⟨true, ProviderBehavior.raises "Request timed out."⟩

/-- An environment in which the provider returns one well-formed choice. -/
def goodEnv : CallEnv :=
  ⟨true, ProviderBehavior.returns
    ⟨[⟨some ⟨some goodContent⟩, "stop"⟩], "gpt-4.1-mini", [("total_tokens", 1200)]⟩⟩

/-- An environment in which the provider returns a response with no
choices. -/
def noChoicesEnv : CallEnv := ⟨true, ProviderBehavior.returns ⟨[], "gpt-4.1-mini", []⟩⟩

/-- A concrete validated inquiry request. -/
def someRequest : PropertyInquiryRequest :=
  ⟨"Property in California", 25, "acres", "Vineyard", "Regeneration", "100k",
   "Water use", "California"⟩

/-! ## Helper lemmas -/

@[simp] lemma exceptBindOk {ε α β : Type} (a : α) (f : α → Except ε β) :
    (Except.ok a >>= f : Except ε β) = f a := rfl

@[simp] lemma exceptBindError {ε α β : Type} (e : ε) (f : α → Except ε β) :
    ((Except.error e : Except ε α) >>= f) = Except.error e := rfl

lemma checkCashFlow_obj_present (kvs : List (String × Json)) (v : Json)
    (h : lookupKey kvs "cash_flow_projection" = some v) :
    checkCashFlow (Json.obj kvs) =
      if isList10 v then Except.ok ()
      else Except.error "cash_flow_projection must be a list of exactly 10 values" := by
  simp [checkCashFlow, duckContains, duckGet, h]

lemma checkBreakdownKeys_char (m : List (String × Json)) (field : String) (keys : List String) :
    checkBreakdownKeys (Json.obj m) field keys =
      match firstBreakdownError m field keys with
      | some e => Except.error e
      | none => Except.ok () := by
  induction keys with
  | nil => rfl
  | cons k rest ih =>
    simp only [checkBreakdownKeys, firstBreakdownError, duckContains, duckGet, exceptBindOk]
    cases hl : lookupKey m k with
    | none => simp [hl]
    | some v => cases h10 : isList10 v <;> simp [hl, h10, ih]

lemma checkBreakdown_obj (kvs : List (String × Json)) (field : String) (keys : List String) :
    checkBreakdown (Json.obj kvs) field keys =
      match lookupKey kvs field with
      | none => Except.ok ()
      | some bd => checkBreakdownKeys bd field keys := by
  simp only [checkBreakdown, duckContains, duckGet, exceptBindOk]
  cases hl : lookupKey kvs field <;> simp [hl]

lemma collectMissing_obj (kvs : List (String × Json)) (fields : List String) :
    collectMissing (Json.obj kvs) fields =
      Except.ok (fields.filter fun f => !(lookupKey kvs f).isSome) := by
  induction fields with
  | nil => rfl
  | cons f rest ih =>
    cases hl : lookupKey kvs f <;>
      simp [collectMissing, duckContains, List.filter, hl, ih]

lemma bdEntryIff (m : List (String × Json)) (k : String) :
    (match lookupKey m k with | some v => isList10 v | none => false) = true ↔
      ∃ v, lookupKey m k = some v ∧ isList10 v = true := by
  cases hl : lookupKey m k <;> simp [hl]

lemma bdAllOK_obj_iff (m : List (String × Json)) (keys : List String) :
    bdAllOK (Json.obj m) keys = true ↔
      ∀ k ∈ keys, ∃ v, lookupKey m k = some v ∧ isList10 v = true := by
  simp only [bdAllOK, List.all_eq_true, bdEntryIff]

lemma firstBreakdownError_none_iff (m : List (String × Json)) (field : String)
    (keys : List String) :
    firstBreakdownError m field keys = none ↔
      ∀ k ∈ keys, ∃ v, lookupKey m k = some v ∧ isList10 v = true := by
  induction keys with
  | nil => simp [firstBreakdownError]
  | cons k rest ih =>
    cases hl : lookupKey m k with
    | none => simp [firstBreakdownError, hl]
    | some v =>
      cases h10 : isList10 v <;>
        simp [firstBreakdownError, hl, h10, ih]

/-- C6: at the construction of the structured estimate, a confidence score
of 1.5 is rejected while 0.0 and 1.0 are accepted: on an otherwise valid
response dict, construction succeeds exactly when the score lies in the
closed interval `[0, 1]`. -/
theorem confidence_score_closed_interval :
    (∀ cs : ℚ, (estimateFromJson (c6Data cs)).isOk = true ↔ (0 ≤ cs ∧ cs ≤ 1))
    ∧ (estimateFromJson (c6Data (3 / 2))).isOk = false
    ∧ (estimateFromJson (c6Data 0)).isOk = true
    ∧ (estimateFromJson (c6Data 1)).isOk = true := by
  have main : ∀ cs : ℚ, (estimateFromJson (c6Data cs)).isOk = true ↔ (0 ≤ cs ∧ cs ≤ 1) := by
    intro cs
    have hred : estimateFromJson (c6Data cs) =
        if cs < 0 ∨ 1 < cs then Except.error "validation error: confidence_score"
        else Except.ok ⟨"P", "D", cs, ["F"], ["R"], "T", "RA", List.replicate 10 1,
          Json.obj [("agricultural_sales", Json.arr tenNums),
            ("ecosystem_services", Json.arr tenNums),
            ("subsidies_incentives", Json.arr tenNums)],
          Json.obj [("operational_costs", Json.arr tenNums),
            ("infrastructure", Json.arr tenNums), ("maintenance", Json.arr tenNums)]⟩ := rfl
    rw [hred]
    by_cases h : cs < 0 ∨ 1 < cs
    · rw [if_pos h]
      simp only [Except.isOk, Except.toBool]
      refine iff_of_false (by simp) ?_
      rintro ⟨h1, h2⟩
      rcases h with h | h <;> linarith
    · rw [if_neg h]
      push_neg at h
      exact iff_of_true rfl h
  refine ⟨main, ?_, (main 0).mpr (by norm_num), (main 1).mpr (by norm_num)⟩
  rw [Bool.eq_false_iff, ne_eq, main (3 / 2)]
  rintro ⟨h1, h2⟩
  norm_num at h2

/-- C4: on a parsed response dict whose `cash_flow_projection` key is
present, the validator hard-fails with the shape error whenever the value is
not a list of exactly 10 elements (in particular at lengths 9 and 11), and
the check passes at length exactly 10 (so validation succeeds whenever the
remaining checks do). -/
theorem cash_flow_projection_length_check (kvs : List (String × Json)) (v : Json)
    (h : lookupKey kvs "cash_flow_projection" = some v) :
    (isList10 v = false →
      validateData (Json.obj kvs) =
        Except.error "cash_flow_projection must be a list of exactly 10 values")
    ∧ (isList10 v = true → otherChecksOK kvs = true →
        validateData (Json.obj kvs) = Except.ok (Json.obj kvs)) := by
  constructor
  · intro h10
    simp [validateData, checkCashFlow_obj_present kvs v h, h10]
  · intro h10 hok
    simp only [otherChecksOK, Bool.and_eq_true] at hok
    obtain ⟨⟨hrev, hcost⟩, hreq⟩ := hok
    simp only [validateData, checkCashFlow_obj_present kvs v h, h10, if_true, exceptBindOk,
      checkBreakdown_obj, collectMissing_obj]
    have hrevok : (match lookupKey kvs "revenue_breakdown" with
        | none => Except.ok ()
        | some bd => checkBreakdownKeys bd "revenue_breakdown" revenueKeys) = Except.ok () := by
      cases hr : lookupKey kvs "revenue_breakdown" with
      | none => rfl
      | some bd =>
        rw [hr] at hrev
        cases bd <;> simp [bdAllOK] at hrev
        case obj m =>
          show checkBreakdownKeys (Json.obj m) "revenue_breakdown" revenueKeys = Except.ok ()
          have hall : ∀ k ∈ revenueKeys, ∃ v, lookupKey m k = some v ∧ isList10 v = true :=
            fun k hk => (bdEntryIff m k).mp (hrev k hk)
          rw [checkBreakdownKeys_char,
            (firstBreakdownError_none_iff m "revenue_breakdown" revenueKeys).mpr hall]
    have hcostok : (match lookupKey kvs "cost_breakdown" with
        | none => Except.ok ()
        | some bd => checkBreakdownKeys bd "cost_breakdown" costKeys) = Except.ok () := by
      cases hr : lookupKey kvs "cost_breakdown" with
      | none => rfl
      | some bd =>
        rw [hr] at hcost
        cases bd <;> simp [bdAllOK] at hcost
        case obj m =>
          show checkBreakdownKeys (Json.obj m) "cost_breakdown" costKeys = Except.ok ()
          have hall : ∀ k ∈ costKeys, ∃ v, lookupKey m k = some v ∧ isList10 v = true :=
            fun k hk => (bdEntryIff m k).mp (hcost k hk)
          rw [checkBreakdownKeys_char,
            (firstBreakdownError_none_iff m "cost_breakdown" costKeys).mpr hall]
    rw [hrevok, hcostok]
    have hfilter : (requiredFields.filter fun f => !(lookupKey kvs f).isSome) = [] := by
      rw [List.filter_eq_nil_iff]
      intro f hf
      simp only [List.all_eq_true] at hreq
      simp [hreq f hf]
    simp [hfilter]
    intro f hf hn
    rw [List.all_eq_true] at hreq
    have h2 := hreq f hf
    rw [hn] at h2
    exact absurd h2 (by simp)

/-- Witness for the cash-flow length check: a length-9 projection is
rejected with the shape error, and a full valid dict with a length-10
projection is accepted. -/
theorem cash_flow_projection_length_check_witness :
    validateData (Json.obj [("cash_flow_projection", Json.arr (List.replicate 9 (Json.num 1)))])
        = Except.error "cash_flow_projection must be a list of exactly 10 values"
    ∧ validateData (Json.obj (c6Fields (17 / 20))) = Except.ok (Json.obj (c6Fields (17 / 20))) :=
  ⟨(cash_flow_projection_length_check
      [("cash_flow_projection", Json.arr (List.replicate 9 (Json.num 1)))]
      (Json.arr (List.replicate 9 (Json.num 1))) rfl).1 rfl,
   (cash_flow_projection_length_check (c6Fields (17 / 20)) (Json.arr tenNums) rfl).2 rfl rfl⟩

/-- C2 (amended): the breakdown stage of the validator requires, for the revenue
breakdown, each of the three fixed keys to be present and map to a list of
exactly 10 elements — of any JSON type, numericity is not checked — and
performs the identical check on the cost-breakdown keys; a dict missing one
of the revenue keys is rejected with an error naming that key, and that
rejection is the overall validator result. -/
theorem breakdown_key_checks (m : List (String × Json)) :
    (checkBreakdownKeys (Json.obj m) "revenue_breakdown" revenueKeys = Except.ok ()
      ↔ ∀ k ∈ revenueKeys, ∃ v, lookupKey m k = some v ∧ isList10 v = true)
    ∧ (checkBreakdownKeys (Json.obj m) "cost_breakdown" costKeys = Except.ok ()
      ↔ ∀ k ∈ costKeys, ∃ v, lookupKey m k = some v ∧ isList10 v = true)
    ∧ (lookupKey m "agricultural_sales" = none →
        checkBreakdownKeys (Json.obj m) "revenue_breakdown" revenueKeys =
          Except.error "Missing agricultural_sales in revenue_breakdown")
    ∧ (∀ v, lookupKey m "agricultural_sales" = some v → isList10 v = true →
        lookupKey m "ecosystem_services" = none →
        checkBreakdownKeys (Json.obj m) "revenue_breakdown" revenueKeys =
          Except.error "Missing ecosystem_services in revenue_breakdown")
    ∧ (∀ v w, lookupKey m "agricultural_sales" = some v → isList10 v = true →
        lookupKey m "ecosystem_services" = some w → isList10 w = true →
        lookupKey m "subsidies_incentives" = none →
        checkBreakdownKeys (Json.obj m) "revenue_breakdown" revenueKeys =
          Except.error "Missing subsidies_incentives in revenue_breakdown")
    ∧ (∀ kvs e, checkCashFlow (Json.obj kvs) = Except.ok () →
        lookupKey kvs "revenue_breakdown" = some (Json.obj m) →
        checkBreakdownKeys (Json.obj m) "revenue_breakdown" revenueKeys = Except.error e →
        validateData (Json.obj kvs) = Except.error e) := by
  refine ⟨?_, ?_, ?_, ?_, ?_, ?_⟩
  · rw [checkBreakdownKeys_char]
    rw [← firstBreakdownError_none_iff m "revenue_breakdown" revenueKeys]
    cases hfb : firstBreakdownError m "revenue_breakdown" revenueKeys <;> simp [hfb]
  · rw [checkBreakdownKeys_char]
    rw [← firstBreakdownError_none_iff m "cost_breakdown" costKeys]
    cases hfb : firstBreakdownError m "cost_breakdown" costKeys <;> simp [hfb]
  · intro hnone
    simp [revenueKeys, checkBreakdownKeys, duckContains, duckGet, hnone]
  · intro v hv h10 hnone
    simp [revenueKeys, checkBreakdownKeys, duckContains, duckGet, hv, h10, hnone]
  · intro v w hv h10v hw h10w hnone
    simp [revenueKeys, checkBreakdownKeys, duckContains, duckGet, hv, h10v, hw, h10w, hnone]
  · intro kvs e hcf hlook herr
    simp [validateData, hcf, checkBreakdown_obj, hlook, herr]

/-- Witness for the breakdown key checks: a revenue breakdown missing
`ecosystem_services` is rejected naming that key. -/
theorem breakdown_key_checks_witness :
    checkBreakdownKeys
        (Json.obj [("agricultural_sales", Json.arr tenNums),
          ("subsidies_incentives", Json.arr tenNums)])
        "revenue_breakdown" revenueKeys =
      Except.error "Missing ecosystem_services in revenue_breakdown" :=
  (breakdown_key_checks _).2.2.2.1 (Json.arr tenNums) rfl rfl rfl

/-- Counterexample to C2 as stated: a full response dict whose revenue
`agricultural_sales` is an array of 10 strings — not numbers — is accepted
by the validator, so the validator does not require the 10 values to be
numeric. -/
theorem breakdown_numericity_not_required :
    validateData c2Data = Except.ok c2Data
    ∧ (do let rb ← duckGet c2Data "revenue_breakdown"; duckGet rb "agricultural_sales")
        = Except.ok (Json.arr tenStrs)
    ∧ allStrings tenStrs = true ∧ tenStrs.length = 10 :=
  ⟨rfl, rfl, rfl, rfl⟩

/-- C7: a POST to any questionnaire step whose answer strips to the empty
string re-renders the same step with the error message and leaves session
(and store) untouched. -/
theorem empty_answer_rerenders_same_step (db : DB) (sess : Session) (stepParam : Int)
    (answer : String) (initd : InitialData) (hinit : sess.initial_data = some initd)
    (h1 : 1 ≤ stepParam) (h4 : stepParam ≤ 4) (hempty : pyStrip answer = "") :
    estimateQuestionnaire db sess true stepParam answer =
      (QResponse.renderStep stepParam.toNat
        ["Please provide an answer before continuing."] initd
        (sess.questionnaire_answers.getD []), sess, db) := by
  have hclamp : clampStep stepParam = stepParam.toNat := by
    rw [clampStep, if_neg]
    push_neg
    omega
  simp [estimateQuestionnaire, hinit, hempty, hclamp]

/-- Witness for the empty-answer re-render at step 2 with a whitespace-only
answer. -/
theorem empty_answer_rerenders_same_step_witness :
    estimateQuestionnaire someDb someSession true 2 "   " =
      (QResponse.renderStep 2 ["Please provide an answer before continuing."]
        ⟨25, "acres", "California"⟩ [("current_property", "Vineyard")], someSession, someDb) :=
  empty_answer_rerenders_same_step someDb someSession 2 "   " ⟨25, "acres", "California"⟩
    rfl (by decide) (by decide) rfl

/-- C1: when the generation pipeline fails after the inquiry is fetched,
the view appends exactly one analysis-log row — `success = false`, empty
request/response payloads, model `unknown`, zero tokens, zero duration, the
stringified error — returns the 500-style failure response, and leaves the
estimates table and the session unchanged. -/
theorem pipeline_failure_logs_one_row (db : DB) (sess : Session) (iid : Nat) (env : CallEnv)
    (ts : String) (pt : ℚ) (inq : PropertyInquiry) (e : String)
    (hfind : db.inquiries.find? (fun r => r.id = iid) = some inq)
    (hfail : pipelineAfterFetch inq env ts pt = Except.error e) :
    generateAiEstimate db sess iid env ts pt =
      (GenResponse.failure e,
       { db with logs := db.logs ++
           [⟨iid, Json.obj [], Json.obj [], "unknown", 0, 0, false, e⟩] },
       sess) := by
  simp [generateAiEstimate, hfind, hfail]

/-- Witness: a provider timeout yields exactly one failure log row and no
estimate row. -/
theorem pipeline_failure_logs_one_row_witness :
    generateAiEstimate someDb someSession 1 timeoutEnv "t" 0 =
      (GenResponse.failure
        "Failed to generate estimate: OpenAI API call failed: Request timed out.",
       ⟨[someInquiryRow], [],
        [⟨1, Json.obj [], Json.obj [], "unknown", 0, 0, false,
          "Failed to generate estimate: OpenAI API call failed: Request timed out."⟩]⟩,
       someSession) :=
  pipeline_failure_logs_one_row someDb someSession 1 timeoutEnv "t" 0 someInquiryRow
    "Failed to generate estimate: OpenAI API call failed: Request timed out." rfl rfl

/-- C10: after a successful generation the handler removes the four session
keys `questionnaire_data`, `initial_data`, `questionnaire_answers` and
`current_inquiry_id`; after a failed generation the session is unchanged. -/
theorem session_keys_cleared_on_success (db : DB) (sess : Session) (iid : Nat) (env : CallEnv)
    (ts : String) (pt : ℚ) (inq : PropertyInquiry)
    (hfind : db.inquiries.find? (fun r => r.id = iid) = some inq) :
    (∀ pr, pipelineAfterFetch inq env ts pt = Except.ok pr →
      (generateAiEstimate db sess iid env ts pt).2.2 = popGenerateKeys sess)
    ∧ (∀ e, pipelineAfterFetch inq env ts pt = Except.error e →
      (generateAiEstimate db sess iid env ts pt).2.2 = sess) := by
  constructor
  · intro pr hok
    obtain ⟨req, res⟩ := pr
    simp [generateAiEstimate, hfind, hok]
  · intro e herr
    simp [generateAiEstimate, hfind, herr]

set_option maxRecDepth 400000 in
/-- Witness: a successful generation clears the four keys; a timed-out one
leaves the session as it was. -/
theorem session_keys_cleared_on_success_witness :
    (generateAiEstimate someDb someSession 1 goodEnv "t" 0).2.2 = popGenerateKeys someSession
    ∧ (generateAiEstimate someDb someSession 1 timeoutEnv "t" 0).2.2 = someSession := by
  constructor
  · have hIsOk : (pipelineAfterFetch someInquiryRow goodEnv "t" 0).isOk = true := by rfl
    cases hok : pipelineAfterFetch someInquiryRow goodEnv "t" 0 with
    | error e => rw [hok] at hIsOk; exact absurd hIsOk (by simp [Except.isOk, Except.toBool])
    | ok pr =>
      exact (session_keys_cleared_on_success someDb someSession 1 goodEnv "t" 0
        someInquiryRow rfl).1 pr hok
  · exact (session_keys_cleared_on_success someDb someSession 1 timeoutEnv "t" 0
      someInquiryRow rfl).2 _ rfl

@[simp] lemma exceptMapOk {ε α β : Type} (f : α → β) (a : α) :
    (Except.map f (Except.ok a) : Except ε β) = Except.ok (f a) := rfl

@[simp] lemma exceptMapError {ε α β : Type} (f : α → β) (e : ε) :
    (Except.map f (Except.error e : Except ε α)) = Except.error e := rfl

/-- C9: the missing-field check of the prompt builder fires exactly when one of
the eight attributes is absent or `None`; in particular an attribute holding
the empty string passes the check. On failure the error lists the missing
field names. -/
theorem prompt_missing_check_fires_only_on_none (inq : InquiryAttrs) :
    ((createAnalysisPrompt inq).isOk = true ↔
      (inq.address.isSome ∧ inq.lot_size.isSome ∧ inq.lot_size_unit.isSome ∧
       inq.region.isSome ∧ inq.current_property.isSome ∧ inq.property_goals.isSome ∧
       inq.investment_capacity.isSome ∧ inq.preferences_concerns.isSome))
    ∧ ((createAnalysisPrompt inq).isOk = false →
        createAnalysisPrompt inq =
          Except.error ("Missing required inquiry fields: " ++
            String.intercalate ", " (requiredMissing inq))) := by
  obtain ⟨a, ls, u, reg, cp, pg, ic, pc⟩ := inq
  cases a <;> cases ls <;> cases u <;> cases reg <;> cases cp <;> cases pg <;>
    cases ic <;> cases pc <;>
    simp [createAnalysisPrompt, Except.isOk, Except.toBool]

/-- Witness: an inquiry whose address is the empty string builds a prompt
successfully, while an inquiry whose address is `None` fails naming
`address`. -/
theorem prompt_missing_check_fires_only_on_none_witness :
    (createAnalysisPrompt ⟨some "", some 25, some "acres", some "CA", some "a", some "b",
        some "c", some "d"⟩).isOk = true
    ∧ createAnalysisPrompt ⟨none, some 25, some "acres", some "CA", some "a", some "b",
        some "c", some "d"⟩ =
      Except.error "Missing required inquiry fields: address" :=
  ⟨(prompt_missing_check_fires_only_on_none _).1.mpr (by simp),
   (prompt_missing_check_fires_only_on_none _).2 rfl⟩

lemma contains_joinAll (pieces : List String) (x : String) (hx : x ∈ pieces) :
    containsStr (joinAll pieces) x := by
  induction pieces with
  | nil => cases hx
  | cons h t ih =>
    rcases List.mem_cons.mp hx with rfl | hx2
    · exact ⟨[], (joinAll t).data, by simp [joinAll, String.data_append]⟩
    · obtain ⟨l, r, hl⟩ := ih hx2
      exact ⟨h.data ++ l, r, by simp [joinAll, String.data_append, hl, List.append_assoc]⟩

/-- C8: for every inquiry presenting all eight fields, the built prompt
contains each field value as a literal substring (the numeric lot size via
its decimal rendering), and the builder returns the inquiry it read
unchanged. -/
theorem prompt_contains_all_fields (a : String) (ls : ℚ) (u reg cp pg ic pc : String) :
    ∃ p, createAnalysisPrompt ⟨some a, some ls, some u, some reg, some cp, some pg,
          some ic, some pc⟩
        = Except.ok (p, ⟨some a, some ls, some u, some reg, some cp, some pg,
          some ic, some pc⟩)
      ∧ containsStr p a ∧ containsStr p (pyFloatRepr ls) ∧ containsStr p u
      ∧ containsStr p reg ∧ containsStr p cp ∧ containsStr p pg
      ∧ containsStr p ic ∧ containsStr p pc := by
  refine ⟨_, rfl, ?_, ?_, ?_, ?_, ?_, ?_, ?_, ?_⟩ <;>
    · apply contains_joinAll
      simp [promptPieces]

lemma createAnalysisPrompt_attrs (r : PropertyInquiryRequest) :
    createAnalysisPrompt r.attrs =
      Except.ok (joinAll (promptPieces r.address r.lot_size
        (if r.lot_size_unit = "hectares" then r.lot_size * (247105 / 100000 : ℚ)
         else r.lot_size) r.lot_size_unit r.region r.current_property r.property_goals
        r.investment_capacity r.preferences_concerns), r.attrs) := rfl

/-- C3 (amended): the synchronous and asynchronous call variants agree on
every success — for every environment they return the same successful
result, and hence fail under exactly the same conditions (their failure
messages, however, differ; see the counterexample). -/
theorem sync_async_same_success (inquiry : PropertyInquiryRequest) (env : CallEnv)
    (ts : String) (pt : ℚ) (r : AIAnalysisResult) :
    generatePropertyEstimate inquiry env ts pt = Except.ok r ↔
      generatePropertyEstimateAsync inquiry env ts pt = Except.ok r := by
  obtain ⟨key, prov⟩ := env
  cases key
  · rfl
  · cases prov with
    | raises e => rfl
    | returns resp =>
      by_cases hc : resp.choices.isEmpty
      · have h1 : callOpenAIApi ⟨true, ProviderBehavior.returns resp⟩ =
            fun _ => Except.error "OpenAI API call failed: OpenAI API call failed" := by
          funext p
          simp [callOpenAIApi, hc]
        have h2 : callOpenAIApiAsync ⟨true, ProviderBehavior.returns resp⟩ =
            fun _ => Except.error "OpenAI API call failed: OpenAI API returned no choices" := by
          funext p
          simp [callOpenAIApiAsync, hc]
        simp [generatePropertyEstimate, generatePropertyEstimateAsync, generateCore, h1, h2,
          createAnalysisPrompt_attrs]
      · by_cases hm : firstContentTruthy resp
        · have h1 : callOpenAIApi ⟨true, ProviderBehavior.returns resp⟩ =
              fun _ => Except.ok resp := by
            funext p
            simp [callOpenAIApi, hc, hm]
          have h2 : callOpenAIApiAsync ⟨true, ProviderBehavior.returns resp⟩ =
              fun _ => Except.ok resp := by
            funext p
            simp [callOpenAIApiAsync, hc, hm]
          rw [generatePropertyEstimate, generatePropertyEstimateAsync, h1, h2]
        · have h1 : callOpenAIApi ⟨true, ProviderBehavior.returns resp⟩ =
              fun _ => Except.error "OpenAI API call failed: OpenAI API call failed" := by
            funext p
            simp [callOpenAIApi, hc, hm]
          have h2 : callOpenAIApiAsync ⟨true, ProviderBehavior.returns resp⟩ =
              fun _ => Except.error "OpenAI API call failed: OpenAI API returned empty content" := by
            funext p
            simp [callOpenAIApiAsync, hc, hm]
          simp [generatePropertyEstimate, generatePropertyEstimateAsync, generateCore, h1, h2,
            createAnalysisPrompt_attrs]

/-- Counterexample to C3 as stated: on a response with no choices the two
variants both fail but with different failure outcomes — the async variant
names the condition, the sync variant repeats a generic message. -/
theorem sync_async_failure_messages_differ :
    generatePropertyEstimate someRequest noChoicesEnv "t" 0 ≠
      generatePropertyEstimateAsync someRequest noChoicesEnv "t" 0 := by
  intro h
  have h2 : (Except.error
        "Failed to generate estimate: OpenAI API call failed: OpenAI API call failed" :
        Except String AIAnalysisResult) =
      Except.error
        "Failed to generate estimate: OpenAI API call failed: OpenAI API returned no choices" := h
  injection h2 with h3
  exact absurd h3 (by decide)

/-! ## C5: fenced-block round-trip -/

lemma leadsWith_take (p : List Char) : ∀ (x y : List Char), p.length ≤ x.length →
    leadsWith p (x ++ y) = leadsWith p x := by
  induction p with
  | nil => intro x y _; simp [leadsWith]
  | cons pc pt ih =>
    intro x y hlen
    cases x with
    | nil => simp at hlen
    | cons xc xt =>
      simp only [List.cons_append, leadsWith, List.append_eq]
      rw [ih xt y (by simpa using hlen)]

lemma findSub_none_mono (p q : List Char)
    (himp : ∀ x, leadsWith q x = true → leadsWith p x = true) :
    ∀ hay, findSub hay p = none → findSub hay q = none := by
  intro hay
  induction hay with
  | nil =>
    intro h
    simp only [findSub] at h ⊢
    by_cases hq : leadsWith q [] = true
    · rw [if_pos (himp [] hq)] at h; cases h
    · rw [if_neg hq]
  | cons c t ih =>
    intro h
    simp only [findSub] at h ⊢
    by_cases hq : leadsWith q (c :: t) = true
    · rw [if_pos (himp _ hq)] at h; cases h
    · rw [if_neg hq]
      by_cases hp : leadsWith p (c :: t) = true
      · rw [if_pos hp] at h; cases h
      · rw [if_neg hp] at h
        rw [Option.map_eq_none'] at h ⊢
        exact ih h

lemma leadsWith_fenceJson_imp : ∀ x, leadsWith fenceJsonMark x = true →
    leadsWith fenceMark x = true := by
  intro x h
  match x with
  | [] => simp [fenceJsonMark, leadsWith] at h
  | [c1] => simp [fenceJsonMark, leadsWith] at h
  | [c1, c2] => simp [fenceJsonMark, leadsWith] at h
  | c1 :: c2 :: c3 :: rest =>
    simp [fenceJsonMark, leadsWith] at h
    simp [fenceMark, leadsWith]
    exact ⟨h.1, h.2.1, h.2.2.1⟩

lemma findSub_append_self (d : List Char) (h : findSub d fenceMark = none) :
    findSub (d ++ '\n' :: fenceMark) fenceMark = some (d.length + 1) := by
  induction d with
  | nil => rfl
  | cons c t ih =>
    have hlw : leadsWith fenceMark (c :: t) = false := by
      by_cases hp : leadsWith fenceMark (c :: t) = true
      · rw [findSub, if_pos hp] at h; cases h
      · exact Bool.eq_false_iff.mpr hp
    have ht : findSub t fenceMark = none := by
      rw [findSub, if_neg (Bool.eq_false_iff.mp hlw ·), Option.map_eq_none'] at h
      exact h
    have hlw2 : leadsWith fenceMark (c :: (t ++ '\n' :: fenceMark)) = false := by
      cases t with
      | nil => simp [fenceMark, leadsWith]
      | cons t0 tt =>
        cases tt with
        | nil => simp [fenceMark, leadsWith]
        | cons t1 tt2 =>
          have heq : (c :: (t0 :: t1 :: tt2 ++ '\n' :: fenceMark)) =
              (c :: t0 :: t1 :: tt2) ++ '\n' :: fenceMark := by simp
          rw [heq, leadsWith_take fenceMark (c :: t0 :: t1 :: tt2) ('\n' :: fenceMark)
            (by simp [fenceMark])]
          exact hlw
    rw [List.cons_append, findSub, if_neg (Bool.eq_false_iff.mp hlw2 ·), ih ht]
    simp

lemma stripL_cons_ws (c : Char) (x : List Char) (h : isPyWs c = true) :
    stripL (c :: x) = stripL x := by
  simp [stripL, List.dropWhile_cons, h]

lemma stripL_append_ws (x : List Char) (c : Char) (h : isPyWs c = true) :
    stripL (x ++ [c]) = stripL x := by
  induction x with
  | nil => simp [stripL, List.dropWhile, h]
  | cons a t ih =>
    by_cases ha : isPyWs a = true
    · rw [List.cons_append, stripL_cons_ws a _ ha, stripL_cons_ws a t ha]
      exact ih
    · have haf : isPyWs a = false := Bool.eq_false_iff.mpr ha
      have key : (a :: (t ++ [c])).reverse.dropWhile isPyWs =
          (a :: t).reverse.dropWhile isPyWs := by
        have hrev : (a :: (t ++ [c])).reverse = c :: (a :: t).reverse := by simp
        rw [hrev, List.dropWhile_cons, if_pos h]
      simp only [stripL, List.cons_append, List.dropWhile_cons, haf, Bool.false_eq_true,
        if_false]
      rw [key]

lemma fencedData_eq (s : String) :
    ("```json\n" ++ s ++ "\n```").data =
      '`' :: '`' :: '`' :: 'j' :: 's' :: 'o' :: 'n' :: '\n' :: (s.data ++ '\n' :: fenceMark) := by
  have h1 : ("```json\n" : String).data = ['`', '`', '`', 'j', 's', 'o', 'n', '\n'] := rfl
  have h2 : ("\n```" : String).data = '\n' :: fenceMark := rfl
  rw [String.data_append, String.data_append, h1, h2]
  simp

lemma extractJson_fenced (s : String) (h : findSub s.data fenceMark = none) :
    extractJson ("```json\n" ++ s ++ "\n```").data = some (stripL s.data) := by
  rw [fencedData_eq]
  have hfj : findSub
      ('`' :: '`' :: '`' :: 'j' :: 's' :: 'o' :: 'n' :: '\n' :: (s.data ++ '\n' :: fenceMark))
      fenceJsonMark = some 0 := by
    rw [findSub, if_pos]
    simp [fenceJsonMark, leadsWith]
  have htail : findSub ('\n' :: (s.data ++ '\n' :: fenceMark)) fenceMark =
      some (s.data.length + 2) := by
    have hlw : leadsWith fenceMark ('\n' :: (s.data ++ '\n' :: fenceMark)) = false := by
      simp [fenceMark, leadsWith]
    rw [findSub, if_neg (Bool.eq_false_iff.mp hlw ·), findSub_append_self s.data h]
    rfl
  simp only [extractJson, hfj]
  simp only [Nat.zero_add, List.drop_succ_cons, List.drop_zero, htail, Option.getD_some]
  have htake : List.take (s.data.length + 2) ('\n' :: (s.data ++ '\n' :: fenceMark)) =
      '\n' :: (s.data ++ ['\n']) := by
    rw [show s.data.length + 2 = (s.data.length + 1) + 1 from rfl, List.take_succ_cons]
    rw [show s.data.length + 1 = s.data.length + 1 from rfl]
    rw [List.take_append 1]
    simp [fenceMark]
  rw [htake, stripL_cons_ws _ _ (by simp [isPyWs]), stripL_append_ws _ _ (by simp [isPyWs])]

lemma extractJson_bare (s : String) (h : findSub s.data fenceMark = none)
    (h1 : (stripL s.data).head? = some '\x7b')
    (h2 : (stripL s.data).getLast? = some '\x7d') :
    extractJson s.data = some (stripL s.data) := by
  have hfj : findSub s.data fenceJsonMark = none :=
    findSub_none_mono fenceMark fenceJsonMark leadsWith_fenceJson_imp s.data h
  have hb : braceDelim (stripL s.data) = true := by
    simp [braceDelim, h1, h2]
  simp only [extractJson, hfj, hb, if_true]

lemma stripL_fenced_ne_nil (s : String) :
    stripL (("```json\n" ++ s ++ "\n```").data) ≠ [] := by
  rw [fencedData_eq]
  intro hnil
  rw [stripL, List.dropWhile_cons] at hnil
  rw [if_neg (by simp [isPyWs])] at hnil
  rw [List.reverse_eq_nil_iff, List.dropWhile_eq_nil_iff] at hnil
  have := hnil '`' (by simp)
  simp [isPyWs] at this

/-- C5 (amended): for any text whose stripped form is brace-delimited — in
particular any valid JSON object text — and which contains no triple
backtick, the validator on the fenced form `` ```json\n<s>\n``` `` gives
exactly the same result as on the bare text. -/
theorem fenced_roundtrip (s : String) (h : findSub s.data fenceMark = none)
    (h1 : (stripL s.data).head? = some '\x7b')
    (h2 : (stripL s.data).getLast? = some '\x7d') :
    parseOpenAIResponse ("```json\n" ++ s ++ "\n```") = parseOpenAIResponse s := by
  have hne1 : ¬ stripL (("```json\n" ++ s ++ "\n```").data) = [] := stripL_fenced_ne_nil s
  have hne2 : ¬ stripL s.data = [] := by
    intro hnil; rw [hnil] at h1; cases h1
  simp only [parseOpenAIResponse]
  rw [if_neg hne1, if_neg hne2, extractJson_fenced s h, extractJson_bare s h h1 h2]

/-- Witness: a small backtick-free JSON object text round-trips through the
fence identically. -/
theorem fenced_roundtrip_witness :
    parseOpenAIResponse ("```json\n" ++ c5Good ++ "\n```") = parseOpenAIResponse c5Good :=
  fenced_roundtrip c5Good (by decide) (by decide) (by decide)

/-- Counterexample to C5 as stated: a valid JSON object text containing a
triple backtick inside a string value parses on the bare form but not on
the fenced form — the fence search cuts the JSON short. -/
theorem fenced_roundtrip_fails_on_backticks :
    (∃ kvs, jsonParseS c5Bad = some (Json.obj kvs))
    ∧ parseOpenAIResponse ("```json\n" ++ c5Bad ++ "\n```") ≠ parseOpenAIResponse c5Bad := by
  refine ⟨⟨[("a", Json.str "```")], rfl⟩, ?_⟩
  intro h
  have h2 : (Except.error "Failed to parse OpenAI response as JSON" : Except String Json) =
      Except.error "Failed to parse OpenAI response: Missing required fields: project_name, project_description, confidence_score, factors_considered, recommendations, timeline, risk_assessment, cash_flow_projection, revenue_breakdown, cost_breakdown" := h
  injection h2 with h3
  exact absurd h3 (by decide)
